import Mathlib

/-!
Shallow embedding of the AVR I2C master controller
(src/avr_hal/src/i2c/i2c.c) and proofs about its request API and its
interrupt-driven state machine.

Modelling conventions:
* `Machine` bundles the fields of the C singleton `struct i2c_controller_t self`
  together with the caller-owned resources that the C code reaches through
  pointers: `mem` stands for the byte array behind `self.buffer`
  (a `Nat → Nat` map whose values are the bytes of the caller's buffer),
  and `result` stands for the value stored in the caller's result slot
  `*self.operation_result`.
* All `uint8_t` fields take their values modulo 256 whenever the C code
  stores into them; reads return the stored value unchanged.
* Every hardware side effect (TWCR/TWDR writes) and every access through a
  caller pointer is recorded as an `Action`, so theorems can speak about the
  exact sequence of bus operations, buffer accesses and result-slot writes.
* The interrupt handler `ISR(TWI_vect)` becomes the function `isr`, taking
  the hardware status `TW_STATUS` and the data register `TWDR` contents as
  inputs and returning the next machine together with the actions performed.
-/

namespace I2c

/-- TWI status code for a transmitted START condition (avr-libc util/twi.h). -/
def TW_START : Nat := 0x08

/-- TWI status code for a transmitted repeated START condition. -/
def TW_REP_START : Nat := 0x10

/-- TWI status code: SLA+W transmitted, ACK received. -/
def TW_MT_SLA_ACK : Nat := 0x18

/-- TWI status code: data transmitted, ACK received. -/
def TW_MT_DATA_ACK : Nat := 0x28

/-- TWI status code: SLA+R transmitted, ACK received. -/
def TW_MR_SLA_ACK : Nat := 0x40

/-- TWI status code: data received, ACK returned. -/
def TW_MR_DATA_ACK : Nat := 0x50

/-- Bit 0 set in the slave address indicates a read (i2c.c line 33). -/
def I2C_READ_BIT : Nat := 0x01

/-- The C enum `i2c_operation_t`. -/
inductive i2c_operation_t
  | read_op
  | read_register_op
  | write_register_op
deriving DecidableEq

/-- The C enum `i2c_state_t`. -/
inductive i2c_state_t
  | idle
  | start
  | repeated_start
  | send_sla_w
  | write_register
  | write_data
  | read_data
deriving DecidableEq

/-- The C enum `i2c_op_result_t` (declared in hal/i2c.h, used in i2c.c). -/
inductive i2c_op_result_t
  | i2c_operation_processing
  | i2c_operation_ok
  | i2c_operation_start_error
  | i2c_operation_sla_error
  | i2c_operation_write_error
  | i2c_operation_repeated_start_error
  | i2c_operation_read_error
deriving DecidableEq

/-- The C enum `i2c_request_t` (return type of the request API). -/
inductive i2c_request_t
  | i2c_request_ok
  | i2c_request_busy
deriving DecidableEq

/-- Observable side effects of the driver: hardware actions
(`sendStart` = i2c_send_start, `restart` = i2c_restart,
`writeByte` = i2c_write_byte, `sendAck` / `sendNack`, `sendStop` =
the TWCR write in i2c_send_stop) and accesses through caller pointers
(`bufRead i` / `bufWrite i v` for `buffer[i]`, `setResult r` for
`*operation_result = r`). -/
inductive Action
  | sendStart
  | restart
  | writeByte (b : Nat)
  | sendAck
  | sendNack
  | sendStop
  | bufRead (i : Nat)
  | bufWrite (i : Nat) (v : Nat)
  | setResult (r : i2c_op_result_t)
deriving DecidableEq

/-- The controller state: the fields of `struct i2c_controller_t self`
plus the caller-owned buffer contents (`mem`) and result slot (`result`). -/
structure Machine where
  operation : i2c_operation_t
  slave_address : Nat
  data_register : Nat
  state : i2c_state_t
  buffer_length : Nat
  handled_bytes : Nat
  operation_status_code : Nat
  mem : Nat → Nat
  result : i2c_op_result_t

/-- Pointwise update of the buffer memory (a store `buffer[i] = v`). -/
def updMem (f : Nat → Nat) (i v : Nat) : Nat → Nat :=
  fun j => if j = i then v else f j

/-- `i2c_init`: sets state to idle and clears address, register and status
code.  (The C function also programs TWBR/TWCR and nulls the result pointer;
it does not touch `buffer_length`, `handled_bytes` or `operation`.) -/
def i2c_init (m : Machine) : Machine :=
  { m with state := i2c_state_t.idle, slave_address := 0, data_register := 0,
           operation_status_code := 0 }

/-- `i2c_get_error_code`: returns the last captured raw status code. -/
def i2c_get_error_code (m : Machine) : Nat :=
  m.operation_status_code

/-- `i2c_write_register(address, reg, buffer, length, result)`.
If idle: store the arguments, set operation, mark the result slot as
processing, set state to start, zero `handled_bytes`, and issue START.
Otherwise: return busy and do nothing. -/
def i2c_write_register (m : Machine) (address reg length : Nat) :
    i2c_request_t × Machine × List Action :=
  if m.state = i2c_state_t.idle then
    (i2c_request_t.i2c_request_ok,
     { m with slave_address := address % 256,
              data_register := reg % 256,
              buffer_length := length % 256,
              operation := i2c_operation_t.write_register_op,
              result := i2c_op_result_t.i2c_operation_processing,
              state := i2c_state_t.start,
              handled_bytes := 0 },
     [Action.setResult i2c_op_result_t.i2c_operation_processing,
      Action.sendStart])
  else
    (i2c_request_t.i2c_request_busy, m, [])

/-- `i2c_read_register(address, read_register, buffer, length, result)`:
same as `i2c_write_register` with operation = `read_register_op`. -/
def i2c_read_register (m : Machine) (address reg length : Nat) :
    i2c_request_t × Machine × List Action :=
  if m.state = i2c_state_t.idle then
    (i2c_request_t.i2c_request_ok,
     { m with slave_address := address % 256,
              data_register := reg % 256,
              buffer_length := length % 256,
              operation := i2c_operation_t.read_register_op,
              result := i2c_op_result_t.i2c_operation_processing,
              state := i2c_state_t.start,
              handled_bytes := 0 },
     [Action.setResult i2c_op_result_t.i2c_operation_processing,
      Action.sendStart])
  else
    (i2c_request_t.i2c_request_busy, m, [])

/-- `i2c_send_stop`: issues the STOP condition and sets the state to idle
(the TWCR write itself is recorded as `Action.sendStop` at the call sites). -/
def i2c_send_stop (m : Machine) : Machine :=
  { m with state := i2c_state_t.idle }

/-- One invocation of `ISR(TWI_vect)`: `status` is the value of `TW_STATUS`
and `twdr` the value of the hardware data register TWDR (the byte available
to `i2c_read_data`).  Returns the next machine and the actions performed,
in program order.  Cases that `return` in the C code do not reach
`i2c_send_stop`; cases that `break` do. -/
def isr (m : Machine) (status twdr : Nat) : Machine × List Action :=
  match m.state with
  | i2c_state_t.idle =>
      -- no case of the switch matches; control falls through to i2c_send_stop()
      (i2c_send_stop m, [Action.sendStop])
  | i2c_state_t.start =>
      if status = TW_START then
        ({ m with state := i2c_state_t.send_sla_w },
         [Action.writeByte m.slave_address])
      else
        -- "Stop shall not be sent": the handler returns without i2c_send_stop
        ({ m with result := i2c_op_result_t.i2c_operation_start_error,
                  operation_status_code := status % 256 },
         [Action.setResult i2c_op_result_t.i2c_operation_start_error])
  | i2c_state_t.send_sla_w =>
      if status = TW_MT_SLA_ACK then
        ({ m with state := i2c_state_t.write_register },
         [Action.bufRead m.data_register,
          Action.writeByte (m.mem m.data_register)])
      else
        (i2c_send_stop
          { m with result := i2c_op_result_t.i2c_operation_sla_error,
                   operation_status_code := status % 256 },
         [Action.setResult i2c_op_result_t.i2c_operation_sla_error,
          Action.sendStop])
  | i2c_state_t.write_register =>
      if status = TW_MT_DATA_ACK then
        if m.operation = i2c_operation_t.write_register_op then
          ({ m with state := i2c_state_t.write_data,
                    handled_bytes := (m.handled_bytes + 1) % 256 },
           [Action.bufRead m.handled_bytes,
            Action.writeByte (m.mem m.handled_bytes)])
        else
          ({ m with state := i2c_state_t.repeated_start },
           [Action.restart])
      else
        (i2c_send_stop
          { m with result := i2c_op_result_t.i2c_operation_write_error,
                   operation_status_code := status % 256 },
         [Action.setResult i2c_op_result_t.i2c_operation_write_error,
          Action.sendStop])
  | i2c_state_t.write_data =>
      if status = TW_MT_DATA_ACK then
        if m.handled_bytes < m.buffer_length then
          ({ m with handled_bytes := (m.handled_bytes + 1) % 256 },
           [Action.bufRead m.handled_bytes,
            Action.writeByte (m.mem m.handled_bytes)])
        else
          (i2c_send_stop
            { m with result := i2c_op_result_t.i2c_operation_ok },
           [Action.setResult i2c_op_result_t.i2c_operation_ok,
            Action.sendStop])
      else
        (i2c_send_stop
          { m with result := i2c_op_result_t.i2c_operation_write_error,
                   operation_status_code := status % 256 },
         [Action.setResult i2c_op_result_t.i2c_operation_write_error,
          Action.sendStop])
  | i2c_state_t.repeated_start =>
      if status = TW_REP_START then
        ({ m with state := i2c_state_t.read_data },
         [Action.writeByte (Nat.lor m.slave_address I2C_READ_BIT)])
      else
        (i2c_send_stop
          { m with result := i2c_op_result_t.i2c_operation_repeated_start_error,
                   operation_status_code := status % 256 },
         [Action.setResult i2c_op_result_t.i2c_operation_repeated_start_error,
          Action.sendStop])
  | i2c_state_t.read_data =>
      if status = TW_MR_SLA_ACK ∨ status = TW_MR_DATA_ACK then
        -- buffer[handled_bytes++] = TWDR, then compare the new count
        if (m.handled_bytes + 1) % 256 < m.buffer_length then
          ({ m with mem := updMem m.mem m.handled_bytes (twdr % 256),
                    handled_bytes := (m.handled_bytes + 1) % 256 },
           [Action.bufWrite m.handled_bytes (twdr % 256),
            Action.sendAck])
        else
          (i2c_send_stop
            { m with mem := updMem m.mem m.handled_bytes (twdr % 256),
                     handled_bytes := (m.handled_bytes + 1) % 256,
                     result := i2c_op_result_t.i2c_operation_ok },
           [Action.bufWrite m.handled_bytes (twdr % 256),
            Action.setResult i2c_op_result_t.i2c_operation_ok,
            Action.sendNack,
            Action.sendStop])
      else
        (i2c_send_stop
          { m with result := i2c_op_result_t.i2c_operation_read_error,
                   operation_status_code := status % 256 },
         [Action.setResult i2c_op_result_t.i2c_operation_read_error,
          Action.sendStop])

/-- Run a sequence of interrupt invocations; each event is a pair
(TW_STATUS value, TWDR value).  Returns the final machine and the
concatenated action trace. -/
def run : Machine → List (Nat × Nat) → Machine × List Action
  | m, [] => (m, [])
  | m, e :: evs =>
      let s := isr m e.1 e.2
      let r := run s.1 evs
      (r.1, s.2 ++ r.2)

/-- The bytes handed to `i2c_write_byte` (TWDR loads), in order. -/
def sentBytes (tr : List Action) : List Nat :=
  tr.filterMap fun a =>
    match a with
    | Action.writeByte b => some b
    | _ => none

/-- Recognizes a write to the caller's result slot with a completion value
(anything other than the in-progress marker). -/
def isCompletion : Action → Bool
  | Action.setResult i2c_op_result_t.i2c_operation_processing => false
  | Action.setResult _ => true
  | _ => false

/-- Number of completion writes to the result slot in a trace. -/
def completionWrites (tr : List Action) : Nat :=
  (tr.filter isCompletion).length

/-- Recognizes the ACK/NACK arming actions of the receive phase. -/
def isAckNack : Action → Bool
  | Action.sendAck => true
  | Action.sendNack => true
  | _ => false

/-- A run is start-safe when no interrupt is delivered in state `start`
with a status other than `TW_START` (i.e. the START phase never fails). -/
def startSafe : Machine → List (Nat × Nat) → Bool
  | _, [] => true
  | m, e :: evs =>
      decide (m.state = i2c_state_t.start → e.1 = TW_START) &&
        startSafe (isr m e.1 e.2).1 evs

/-- All-zero buffer memory used to build concrete test machines. -/
def mem0 : Nat → Nat := fun _ => 0

/-- Buffer contents for the spec's example scenario 1: a two-byte caller
buffer holding 0xAA, 0xBB; every location outside the buffer reads 0. -/
def scenario1Mem : Nat → Nat :=
  fun i => if i = 0 then 0xAA else if i = 1 then 0xBB else 0

/-- A concrete idle machine used as the starting point of test scenarios. -/
def m_base : Machine :=
  { operation := i2c_operation_t.read_op,
    slave_address := 0,
    data_register := 0,
    state := i2c_state_t.idle,
    buffer_length := 0,
    handled_bytes := 0,
    operation_status_code := 0,
    mem := mem0,
    result := i2c_op_result_t.i2c_operation_ok }

/-- Spec example scenario 1: accept write_register(0x50, 0x10, [0xAA,0xBB], 2). -/
def scenario1Accept : i2c_request_t × Machine × List Action :=
  i2c_write_register { m_base with mem := scenario1Mem } 0x50 0x10 2

/-- The event sequence of an all-ACK write transaction of length 2:
START sent, SLA+W ACKed, then three data-byte ACKs. -/
def allAckWriteEvents : List (Nat × Nat) :=
  [(TW_START, 0), (TW_MT_SLA_ACK, 0), (TW_MT_DATA_ACK, 0),
   (TW_MT_DATA_ACK, 0), (TW_MT_DATA_ACK, 0)]

/-- The complete run of example scenario 1. -/
def scenario1Run : Machine × List Action :=
  run scenario1Accept.2.1 allAckWriteEvents

/-- Accept a zero-length write_register(0x50, 0x05, [], 0). -/
def zeroWriteAccept : i2c_request_t × Machine × List Action :=
  i2c_write_register m_base 0x50 0x05 0

/-- Run of the zero-length write through START, SLA+W ACK and the
register-byte ACK. -/
def zeroWriteRun : Machine × List Action :=
  run zeroWriteAccept.2.1 [(TW_START, 0), (TW_MT_SLA_ACK, 0), (TW_MT_DATA_ACK, 0)]

/-- Accept a zero-length read_register(0x50, 0x05, [], 0). -/
def zeroReadAccept : i2c_request_t × Machine × List Action :=
  i2c_read_register m_base 0x50 0x05 0

/-- Run of the zero-length read through its full all-ACK event sequence;
the last event is SLA+R acknowledged with 0x77 in TWDR. -/
def zeroReadRun : Machine × List Action :=
  run zeroReadAccept.2.1
    [(TW_START, 0), (TW_MT_SLA_ACK, 0), (TW_MT_DATA_ACK, 0),
     (TW_REP_START, 0), (TW_MR_SLA_ACK, 0x77)]

/-- A concrete machine sitting in the repeated-start state, about to
transmit SLA+R for target address byte 0x50. -/
def mRep : Machine :=
  { m_base with state := i2c_state_t.repeated_start, slave_address := 0x50 }

/-- The receive-phase events of an all-ACK read: each received byte is
reported with the data-acknowledged status. -/
def mkReadDataEvents (bytes : List Nat) : List (Nat × Nat) :=
  bytes.map fun b => (TW_MR_DATA_ACK, b)

/-- The receive-phase events as the hardware delivers them: the first
interrupt in the read state carries the SLA+R-acknowledged status, the
rest the data-acknowledged status. -/
def readEvents : List Nat → List (Nat × Nat)
  | [] => []
  | b :: bs => (TW_MR_SLA_ACK, b) :: mkReadDataEvents bs

/-- The full event sequence of an all-ACK read-register transaction:
START sent, SLA+W ACKed, register byte ACKed, repeated START sent, then
the receive phase. -/
def readRegisterEvents (bytes : List Nat) : List (Nat × Nat) :=
  (TW_START, 0) :: (TW_MT_SLA_ACK, 0) :: (TW_MT_DATA_ACK, 0) ::
    (TW_REP_START, 0) :: readEvents bytes

/-- The action trace the receive phase produces when the remaining bytes
are `bytes` and the next buffer slot is `h`: every byte is stored, every
byte but the last is ACKed, and the last is followed by the success
result, the NACK and the STOP. -/
def readPhaseTrace : Nat → List Nat → List Action
  | _, [] => []
  | h, [b] => [Action.bufWrite h (b % 256),
               Action.setResult i2c_op_result_t.i2c_operation_ok,
               Action.sendNack, Action.sendStop]
  | h, b :: b2 :: bs =>
      Action.bufWrite h (b % 256) :: Action.sendAck :: readPhaseTrace (h + 1) (b2 :: bs)

/-- Store `bytes` into consecutive buffer slots starting at `h`. -/
def writeBack : (Nat → Nat) → Nat → List Nat → Nat → Nat
  | f, _, [] => f
  | f, h, b :: bs => writeBack (updMem f h (b % 256)) (h + 1) bs

/-! ## Helper lemmas -/

/-- In the idle state no switch case matches and the handler only calls
`i2c_send_stop`, which leaves an idle machine unchanged. -/
theorem isr_idle_eq (m : Machine) (s d : Nat)
    (h : m.state = i2c_state_t.idle) :
    isr m s d = (m, [Action.sendStop]) := by
  cases m with
  | mk op sa dr st bl hb oc me re =>
    obtain rfl : st = i2c_state_t.idle := h
    rfl

/-- A machine that is idle stays idle under any event sequence, emitting
one STOP per spurious interrupt and nothing else. -/
theorem run_idle_eq (evs : List (Nat × Nat)) (m : Machine)
    (h : m.state = i2c_state_t.idle) :
    run m evs = (m, List.replicate evs.length Action.sendStop) := by
  induction evs generalizing m with
  | nil => rfl
  | cons e evs ih =>
      have hstep := isr_idle_eq m e.1 e.2 h
      simp [run, hstep, ih m h, List.replicate_succ]

/-- Unfolding one interrupt of a run. -/
theorem run_cons (m : Machine) (e : Nat × Nat) (evs : List (Nat × Nat)) :
    run m (e :: evs) =
      ((run (isr m e.1 e.2).1 evs).1,
       (isr m e.1 e.2).2 ++ (run (isr m e.1 e.2).1 evs).2) := rfl

/-- Unfolding one interrupt of a run, with the event given as components. -/
theorem run_cons_pair (m : Machine) (s d : Nat) (evs : List (Nat × Nat)) :
    run m ((s, d) :: evs) =
      ((run (isr m s d).1 evs).1,
       (isr m s d).2 ++ (run (isr m s d).1 evs).2) := rfl

/-- Completion-write counting distributes over trace concatenation. -/
theorem completionWrites_append (a b : List Action) :
    completionWrites (a ++ b) = completionWrites a + completionWrites b := by
  simp [completionWrites, List.filter_append]

/-- A trace of STOPs alone contains no completion write. -/
theorem completionWrites_replicate_stop (n : Nat) :
    completionWrites (List.replicate n Action.sendStop) = 0 := by
  induction n with
  | zero => rfl
  | succ n ih =>
      rw [List.replicate_succ]
      have h : completionWrites (Action.sendStop :: List.replicate n Action.sendStop) =
          completionWrites (List.replicate n Action.sendStop) := rfl
      rw [h, ih]

/-- Every single handler invocation from a non-idle state that is not a
start-phase failure either performs no completion write and stays
non-idle, or performs exactly one completion write and lands in idle. -/
theorem isr_step_completion (m : Machine) (s d : Nat)
    (hni : m.state ≠ i2c_state_t.idle)
    (hs : m.state = i2c_state_t.start → s = TW_START) :
    (completionWrites (isr m s d).2 = 0 ∧ (isr m s d).1.state ≠ i2c_state_t.idle) ∨
    (completionWrites (isr m s d).2 = 1 ∧ (isr m s d).1.state = i2c_state_t.idle) := by
  cases m with
  | mk op sa dr st bl hb oc me re =>
    cases st with
    | idle => exact absurd rfl hni
    | start =>
        have h2 : s = TW_START := hs rfl
        subst h2
        left
        refine ⟨?_, ?_⟩ <;> simp [isr, completionWrites, isCompletion]
    | send_sla_w =>
        by_cases h : s = TW_MT_SLA_ACK
        · left
          refine ⟨?_, ?_⟩ <;> simp [isr, h, completionWrites, isCompletion]
        · right
          refine ⟨?_, ?_⟩ <;> simp [isr, h, completionWrites, isCompletion, i2c_send_stop]
    | write_register =>
        by_cases h : s = TW_MT_DATA_ACK
        · by_cases hop : op = i2c_operation_t.write_register_op
          · left
            refine ⟨?_, ?_⟩ <;> simp [isr, h, hop, completionWrites, isCompletion]
          · left
            refine ⟨?_, ?_⟩ <;> simp [isr, h, hop, completionWrites, isCompletion]
        · right
          refine ⟨?_, ?_⟩ <;> simp [isr, h, completionWrites, isCompletion, i2c_send_stop]
    | write_data =>
        by_cases h : s = TW_MT_DATA_ACK
        · by_cases hlt : hb < bl
          · left
            refine ⟨?_, ?_⟩ <;> simp [isr, h, hlt, completionWrites, isCompletion]
          · right
            refine ⟨?_, ?_⟩ <;> simp [isr, h, hlt, completionWrites, isCompletion, i2c_send_stop]
        · right
          refine ⟨?_, ?_⟩ <;> simp [isr, h, completionWrites, isCompletion, i2c_send_stop]
    | repeated_start =>
        by_cases h : s = TW_REP_START
        · left
          refine ⟨?_, ?_⟩ <;> simp [isr, h, completionWrites, isCompletion]
        · right
          refine ⟨?_, ?_⟩ <;> simp [isr, h, completionWrites, isCompletion, i2c_send_stop]
    | read_data =>
        by_cases h : s = TW_MR_SLA_ACK ∨ s = TW_MR_DATA_ACK
        · by_cases hlt : (hb + 1) % 256 < bl
          · left
            refine ⟨?_, ?_⟩ <;> simp [isr, h, hlt, completionWrites, isCompletion]
          · right
            refine ⟨?_, ?_⟩ <;> simp [isr, h, hlt, completionWrites, isCompletion, i2c_send_stop]
        · right
          refine ⟨?_, ?_⟩ <;> simp [isr, h, completionWrites, isCompletion, i2c_send_stop]

/-- Over any start-safe run from a non-idle state, at most one completion
write occurs, and one has occurred exactly when the machine has reached
idle. -/
theorem run_completion_aux (evs : List (Nat × Nat)) (m : Machine)
    (hni : m.state ≠ i2c_state_t.idle)
    (hsafe : startSafe m evs = true) :
    completionWrites (run m evs).2 ≤ 1 ∧
    (completionWrites (run m evs).2 = 1 ↔ (run m evs).1.state = i2c_state_t.idle) := by
  induction evs generalizing m with
  | nil => exact ⟨by simp [run, completionWrites], by simp [run, completionWrites, hni]⟩
  | cons e evs ih =>
      simp only [startSafe, Bool.and_eq_true, decide_eq_true_eq] at hsafe
      obtain ⟨hp, hrest⟩ := hsafe
      rw [run_cons]
      rcases isr_step_completion m e.1 e.2 hni hp with ⟨hc0, hni2⟩ | ⟨hc1, hid⟩
      · have hih := ih (isr m e.1 e.2).1 hni2 hrest
        simpa [completionWrites_append, hc0] using hih
      · have hrun := run_idle_eq evs (isr m e.1 e.2).1 hid
        simp [completionWrites_append, hc1, hrun, completionWrites_replicate_stop, hid]

/-- Buffer slots below the write-back window are untouched. -/
theorem writeBack_lt (bytes : List Nat) (f : Nat → Nat) (h j : Nat) (hj : j < h) :
    writeBack f h bytes j = f j := by
  induction bytes generalizing f h with
  | nil => rfl
  | cons b bs ih =>
      rw [writeBack, ih (updMem f h (b % 256)) (h + 1) (Nat.lt_succ_of_lt hj)]
      simp [updMem, Nat.ne_of_lt hj]

/-- Inside the write-back window each slot holds its byte (mod 256). -/
theorem writeBack_getD (bytes : List Nat) (f : Nat → Nat) (h i : Nat)
    (hi : i < bytes.length) :
    writeBack f h bytes (h + i) = bytes.getD i 0 % 256 := by
  induction bytes generalizing f h i with
  | nil => simp at hi
  | cons b bs ih =>
      cases i with
      | zero =>
          rw [writeBack]
          have hlt : h + 0 < h + 1 := by omega
          rw [writeBack_lt bs (updMem f h (b % 256)) (h + 1) (h + 0) hlt]
          simp [updMem]
      | succ i =>
          rw [writeBack]
          have harith : h + (i + 1) = (h + 1) + i := by omega
          rw [harith, ih (updMem f h (b % 256)) (h + 1) i (by simpa using hi)]
          simp

/-- The ACK/NACK actions of the expected receive-phase trace are exactly
one ACK per byte except the last, then one NACK. -/
theorem readPhaseTrace_filter (bytes : List Nat) (h : Nat) (hne : bytes ≠ []) :
    (readPhaseTrace h bytes).filter isAckNack =
      List.replicate (bytes.length - 1) Action.sendAck ++ [Action.sendNack] := by
  induction bytes generalizing h with
  | nil => cases hne rfl
  | cons b bs ih =>
      cases bs with
      | nil => simp [readPhaseTrace, isAckNack, List.filter]
      | cons b2 bs2 =>
          rw [readPhaseTrace]
          have hr := ih (h + 1) (by simp)
          simp only [List.filter, isAckNack] at hr ⊢
          rw [hr]
          simp [List.replicate_succ]

/-- In the read-data state the handler treats the SLA+R-acknowledged
status exactly like the data-acknowledged status. -/
theorem isr_read_sla_eq (m : Machine) (d : Nat)
    (h : m.state = i2c_state_t.read_data) :
    isr m TW_MR_SLA_ACK d = isr m TW_MR_DATA_ACK d := by
  cases m with
  | mk op sa dr st bl hb oc me re =>
    obtain rfl : st = i2c_state_t.read_data := h
    simp [isr, TW_MR_SLA_ACK, TW_MR_DATA_ACK]

/-- A receive phase behaves the same whether its first event carries the
SLA+R-acknowledged or the data-acknowledged status. -/
theorem run_readEvents_eq (bytes : List Nat) (m : Machine)
    (h : m.state = i2c_state_t.read_data) (hne : bytes ≠ []) :
    run m (readEvents bytes) = run m (mkReadDataEvents bytes) := by
  cases bytes with
  | nil => cases hne rfl
  | cons b bs =>
      show run m ((TW_MR_SLA_ACK, b) :: mkReadDataEvents bs) =
           run m ((TW_MR_DATA_ACK, b) :: mkReadDataEvents bs)
      rw [run_cons, run_cons]
      simp only []
      rw [isr_read_sla_eq m b h]

/-- Running the receive phase from the read-data state with exactly the
remaining number of bytes stores every byte in order, ACKs all but the
last, NACKs the last, writes the success result and stops. -/
theorem run_read_loop (bytes : List Nat) (m : Machine)
    (hst : m.state = i2c_state_t.read_data)
    (hlen : m.handled_bytes + bytes.length = m.buffer_length)
    (hbl : m.buffer_length < 256)
    (hne : bytes ≠ []) :
    run m (mkReadDataEvents bytes) =
      ({ m with mem := writeBack m.mem m.handled_bytes bytes,
                handled_bytes := m.buffer_length,
                state := i2c_state_t.idle,
                result := i2c_op_result_t.i2c_operation_ok },
       readPhaseTrace m.handled_bytes bytes) := by
  induction bytes generalizing m with
  | nil => cases hne rfl
  | cons b bs ih =>
      cases m with
      | mk op sa dr st bl hb oc me re =>
        obtain rfl : st = i2c_state_t.read_data := hst
        have hbl2 : bl < 256 := hbl
        cases bs with
        | nil =>
            have hlen1 : hb + 1 = bl := by simpa using hlen
            have hmod : (hb + 1) % 256 = hb + 1 := Nat.mod_eq_of_lt (by omega)
            have hcond : ¬ ((hb + 1) % 256 < bl) := by rw [hmod]; omega
            have hstep : isr (Machine.mk op sa dr i2c_state_t.read_data bl hb oc me re)
                TW_MR_DATA_ACK b =
              (Machine.mk op sa dr i2c_state_t.idle bl ((hb + 1) % 256) oc
                 (updMem me hb (b % 256)) i2c_op_result_t.i2c_operation_ok,
               [Action.bufWrite hb (b % 256),
                Action.setResult i2c_op_result_t.i2c_operation_ok,
                Action.sendNack, Action.sendStop]) := by
              simp [isr, hcond, i2c_send_stop]
            show run _ ((TW_MR_DATA_ACK, b) :: []) = _
            rw [run_cons_pair, hstep]
            dsimp only
            rw [hmod, hlen1]
            rfl
        | cons b2 bs2 =>
            have hlen2 : hb + (bs2.length + 2) = bl := by simpa using hlen
            have hmod : (hb + 1) % 256 = hb + 1 := Nat.mod_eq_of_lt (by omega)
            have hcond : (hb + 1) % 256 < bl := by rw [hmod]; omega
            have hstep : isr (Machine.mk op sa dr i2c_state_t.read_data bl hb oc me re)
                TW_MR_DATA_ACK b =
              (Machine.mk op sa dr i2c_state_t.read_data bl ((hb + 1) % 256) oc
                 (updMem me hb (b % 256)) re,
               [Action.bufWrite hb (b % 256), Action.sendAck]) := by
              simp [isr, hcond]
            show run _ ((TW_MR_DATA_ACK, b) :: mkReadDataEvents (b2 :: bs2)) = _
            rw [run_cons_pair, hstep]
            dsimp only
            have hih := ih (Machine.mk op sa dr i2c_state_t.read_data bl ((hb + 1) % 256) oc
                (updMem me hb (b % 256)) re) rfl
              (by dsimp only; rw [hmod]; simp; omega) hbl2 (by simp)
            rw [hih]
            dsimp only
            rw [hmod]
            rfl

/-! ## Claim theorems -/

/-- Claim C1 (code bug evaluated at the failing input): in example
scenario 1 — write_register(0x50, 0x10, [0xAA,0xBB], 2) with every event
an ACK — the handler in the send-SLA+W state transmits
`buffer[data_register]` (here `buffer[0x10]`, outside the two-byte
buffer, reading the junk value 0) instead of the register index 0x10.
The bytes put on the wire are 0x50, 0x00, 0xAA, 0xBB, so the data bytes
after the address phase are 0x00, 0xAA, 0xBB, not the 0x10, 0xAA, 0xBB
the claim requires, even though the transaction still reports success. -/
theorem c1_register_byte_bug :
    sentBytes scenario1Run.2 = [0x50, 0x00, 0xAA, 0xBB] ∧
    (sentBytes scenario1Run.2).drop 1 ≠ [0x10, 0xAA, 0xBB] ∧
    Action.bufRead 0x10 ∈ scenario1Run.2 ∧
    scenario1Run.1.state = i2c_state_t.idle ∧
    scenario1Run.1.result = i2c_op_result_t.i2c_operation_ok := by
  decide

/-- Claim C2 (counterexample): after accepting example scenario 1 the
machine is in the start state; delivering an interrupt with status
0x20 ≠ TW_START makes the handler write the start-condition-error result
and capture the raw code, but it issues no STOP and the state remains
`start`, not `Idle` — contradicting the claim that every start-phase
error issues STOP and returns to Idle. -/
theorem c2_counterexample :
    (isr scenario1Accept.2.1 0x20 0).1.state = i2c_state_t.start ∧
    (isr scenario1Accept.2.1 0x20 0).1.state ≠ i2c_state_t.idle ∧
    Action.sendStop ∉ (isr scenario1Accept.2.1 0x20 0).2 ∧
    (isr scenario1Accept.2.1 0x20 0).1.result =
      i2c_op_result_t.i2c_operation_start_error ∧
    i2c_get_error_code (isr scenario1Accept.2.1 0x20 0).1 = 0x20 := by
  decide

/-- Claim C2 (amended): on any interrupt in state `start` whose status is
not start-condition-sent, the handler writes the start-condition-error
result and captures the raw status code, but sends no STOP and leaves the
state at `start` (the C code returns before `i2c_send_stop`, with the
comment that no stop shall be sent). -/
theorem c2_start_error_amended (m : Machine) (s d : Nat)
    (hst : m.state = i2c_state_t.start) (hs : s ≠ TW_START) :
    isr m s d =
      ({ m with result := i2c_op_result_t.i2c_operation_start_error,
                operation_status_code := s % 256 },
       [Action.setResult i2c_op_result_t.i2c_operation_start_error]) := by
  cases m with
  | mk op sa dr st bl hb oc me re =>
    obtain rfl : st = i2c_state_t.start := hst
    simp [isr, hs]

/-- Claim C2 (witness for the amended theorem at status 0x20). -/
theorem c2_amended_witness :
    scenario1Accept.2.1.state = i2c_state_t.start ∧ (0x20 : Nat) ≠ TW_START ∧
    isr scenario1Accept.2.1 0x20 0 =
      ({ scenario1Accept.2.1 with
           result := i2c_op_result_t.i2c_operation_start_error,
           operation_status_code := 0x20 % 256 },
       [Action.setResult i2c_op_result_t.i2c_operation_start_error]) :=
  ⟨by decide, by decide,
   c2_start_error_amended scenario1Accept.2.1 0x20 0 (by decide) (by decide)⟩

/-- Claim C3 (code bug evaluated at the failing input): a zero-length
write_register(0x50, 0x05, [], 0), after START and SLA+W are ACKed,
reacts to the register-byte ACK by transmitting `buffer[0]` (a byte read
out of the empty caller buffer) and moving to the write-data state with
the result still in-progress and no STOP — instead of the immediate
success/STOP/Idle with no buffer access that the claim requires.  A
zero-length read likewise stores a received byte into `buffer[0]` and
leaves `handled_bytes = 1`. -/
theorem c3_zero_length_bug :
    (isr (run zeroWriteAccept.2.1 [(TW_START, 0), (TW_MT_SLA_ACK, 0)]).1
        TW_MT_DATA_ACK 0).2 =
      [Action.bufRead 0, Action.writeByte 0] ∧
    zeroWriteRun.1.state = i2c_state_t.write_data ∧
    zeroWriteRun.1.result = i2c_op_result_t.i2c_operation_processing ∧
    Action.sendStop ∉ zeroWriteRun.2 ∧
    Action.bufWrite 0 0x77 ∈ zeroReadRun.2 ∧
    zeroReadRun.1.handled_bytes = 1 := by
  decide

/-- Claim C4 (code bug evaluated at the failing inputs): in example
scenario 1 the handler reads `buffer[0x10]` although the buffer length
is 2 (index 16 is out of bounds), and after the zero-length write run
`handled_bytes = 1 > buffer_length = 0`, violating the claimed invariant
`handled_bytes ≤ buffer_length`. -/
theorem c4_bounds_bug :
    scenario1Accept.2.1.buffer_length = 2 ∧
    Action.bufRead 0x10 ∈ scenario1Run.2 ∧
    ¬ (0x10 : Nat) < scenario1Accept.2.1.buffer_length ∧
    zeroWriteRun.1.buffer_length = 0 ∧
    zeroWriteRun.1.handled_bytes = 1 ∧
    ¬ zeroWriteRun.1.handled_bytes ≤ zeroWriteRun.1.buffer_length := by
  decide

/-- Claim C5 (counterexample): accepting a request for target address
0x50 and delivering the start event makes the controller transmit the
byte 0x50 — not 0xA0 = 2 * 0x50, the 7-bit address 0x50 framed with the
write direction bit; after a repeated start it transmits
0x51 = 0x50 OR 1, not 0xA1 = 2 * 0x50 + 1.  So the stored address cannot
be the unshifted 7-bit address: the code transmits it verbatim (callers
must pass it pre-shifted). -/
theorem c5_counterexample :
    (isr scenario1Accept.2.1 TW_START 0).2 = [Action.writeByte 0x50] ∧
    (0x50 : Nat) ≠ 2 * 0x50 ∧
    (isr mRep TW_REP_START 0).2 = [Action.writeByte 0x51] ∧
    (0x51 : Nat) ≠ 2 * 0x50 + 1 := by
  decide

/-- Claim C5 (amended): the context stores the address byte exactly as the
caller passed it (truncated to 8 bits) and applies no shift when framing:
after START the controller transmits the stored `slave_address`
unchanged, and after a repeated START it transmits the stored
`slave_address` bitwise-OR `I2C_READ_BIT`. -/
theorem c5_address_framing_amended (m : Machine) (s d : Nat) :
    (m.state = i2c_state_t.start → s = TW_START →
      (isr m s d).2 = [Action.writeByte m.slave_address]) ∧
    (m.state = i2c_state_t.repeated_start → s = TW_REP_START →
      (isr m s d).2 = [Action.writeByte (Nat.lor m.slave_address I2C_READ_BIT)]) := by
  constructor
  · intro h1 h2
    cases m with
    | mk op sa dr st bl hb oc me re =>
      obtain rfl : st = i2c_state_t.start := h1
      subst h2
      simp [isr]
  · intro h1 h2
    cases m with
    | mk op sa dr st bl hb oc me re =>
      obtain rfl : st = i2c_state_t.repeated_start := h1
      subst h2
      simp [isr]

/-- Claim C5 (witness for the amended theorem at concrete machines). -/
theorem c5_amended_witness :
    scenario1Accept.2.1.state = i2c_state_t.start ∧
    (isr scenario1Accept.2.1 TW_START 0).2 =
      [Action.writeByte scenario1Accept.2.1.slave_address] ∧
    mRep.state = i2c_state_t.repeated_start ∧
    (isr mRep TW_REP_START 0).2 =
      [Action.writeByte (Nat.lor mRep.slave_address I2C_READ_BIT)] :=
  ⟨by decide,
   (c5_address_framing_amended scenario1Accept.2.1 TW_START 0).1 (by decide) rfl,
   by decide,
   (c5_address_framing_amended mRep TW_REP_START 0).2 (by decide) rfl⟩

/-- Claim C6 (counterexample): after accepting example scenario 1, two
consecutive interrupts in the start state with the bad status 0x20 write
a completion result twice into the caller's result slot, and after the
first completion write the state is still not Idle — contradicting the
claim that no sequence of handler invocations causes a second completion
write and that the state is Idle immediately after the write. -/
theorem c6_counterexample :
    completionWrites (run scenario1Accept.2.1 [(0x20, 0), (0x20, 0)]).2 = 2 ∧
    (isr scenario1Accept.2.1 0x20 0).1.state ≠ i2c_state_t.idle := by
  decide

/-- Claim C7: a request submitted while the controller is not idle is
rejected busy with no side effects whatsoever: the context, the
in-flight transaction's buffer and result slot are untouched (the
machine is returned unchanged) and no bus action is issued. -/
theorem c7_busy_no_side_effects (m : Machine) (a r l a2 r2 l2 : Nat)
    (h : m.state ≠ i2c_state_t.idle) :
    i2c_write_register m a r l = (i2c_request_t.i2c_request_busy, m, []) ∧
    i2c_read_register m a2 r2 l2 = (i2c_request_t.i2c_request_busy, m, []) := by
  constructor
  · simp [i2c_write_register, h]
  · simp [i2c_read_register, h]

/-- Claim C7 (witness at a machine busy in the start state). -/
theorem c7_witness :
    ({ m_base with state := i2c_state_t.start } : Machine).state ≠
      i2c_state_t.idle ∧
    i2c_write_register { m_base with state := i2c_state_t.start } 0x50 0x10 2 =
      (i2c_request_t.i2c_request_busy,
       { m_base with state := i2c_state_t.start }, []) ∧
    i2c_read_register { m_base with state := i2c_state_t.start } 0x50 0x20 3 =
      (i2c_request_t.i2c_request_busy,
       { m_base with state := i2c_state_t.start }, []) :=
  ⟨by decide,
   c7_busy_no_side_effects { m_base with state := i2c_state_t.start }
     0x50 0x10 2 0x50 0x20 3 (by decide)⟩

/-- Claim C9: a request submitted while the controller is idle is
accepted: every context field is populated from the arguments, the
result slot is marked in-progress, `handled_bytes` is reset, the state
becomes `start`, and the START condition is issued before the call
returns (the action list of the call is exactly the result-slot write
followed by the START). -/
theorem c9_accept_populates (m : Machine) (a r l : Nat)
    (h : m.state = i2c_state_t.idle) :
    i2c_write_register m a r l =
      (i2c_request_t.i2c_request_ok,
       { m with slave_address := a % 256, data_register := r % 256,
                buffer_length := l % 256,
                operation := i2c_operation_t.write_register_op,
                result := i2c_op_result_t.i2c_operation_processing,
                state := i2c_state_t.start, handled_bytes := 0 },
       [Action.setResult i2c_op_result_t.i2c_operation_processing,
        Action.sendStart]) ∧
    i2c_read_register m a r l =
      (i2c_request_t.i2c_request_ok,
       { m with slave_address := a % 256, data_register := r % 256,
                buffer_length := l % 256,
                operation := i2c_operation_t.read_register_op,
                result := i2c_op_result_t.i2c_operation_processing,
                state := i2c_state_t.start, handled_bytes := 0 },
       [Action.setResult i2c_op_result_t.i2c_operation_processing,
        Action.sendStart]) := by
  constructor
  · simp [i2c_write_register, h]
  · simp [i2c_read_register, h]

/-- Claim C9 (witness at the concrete idle base machine). -/
theorem c9_witness :
    m_base.state = i2c_state_t.idle ∧
    i2c_write_register m_base 0x50 0x10 2 =
      (i2c_request_t.i2c_request_ok,
       { m_base with slave_address := 0x50 % 256, data_register := 0x10 % 256,
                     buffer_length := 2 % 256,
                     operation := i2c_operation_t.write_register_op,
                     result := i2c_op_result_t.i2c_operation_processing,
                     state := i2c_state_t.start, handled_bytes := 0 },
       [Action.setResult i2c_op_result_t.i2c_operation_processing,
        Action.sendStart]) ∧
    i2c_read_register m_base 0x50 0x10 2 =
      (i2c_request_t.i2c_request_ok,
       { m_base with slave_address := 0x50 % 256, data_register := 0x10 % 256,
                     buffer_length := 2 % 256,
                     operation := i2c_operation_t.read_register_op,
                     result := i2c_op_result_t.i2c_operation_processing,
                     state := i2c_state_t.start, handled_bytes := 0 },
       [Action.setResult i2c_op_result_t.i2c_operation_processing,
        Action.sendStart]) :=
  ⟨rfl, c9_accept_populates m_base 0x50 0x10 2 rfl⟩

/-- Claim C10: an interrupt delivered while the controller is idle
matches no case of the state switch, falls through to the trailing
`i2c_send_stop`, and so issues a STOP on the bus while changing no
software state at all: the machine (context fields, buffer contents and
result slot) is returned unchanged and still idle, and the only action
is the STOP. -/
theorem c10_idle_interrupt (m : Machine) (s d : Nat)
    (h : m.state = i2c_state_t.idle) :
    isr m s d = (m, [Action.sendStop]) :=
  isr_idle_eq m s d h

/-- Claim C10 (witness at the concrete idle base machine, spurious
status 0x20). -/
theorem c10_witness :
    m_base.state = i2c_state_t.idle ∧
    isr m_base 0x20 0 = (m_base, [Action.sendStop]) :=
  ⟨rfl, c10_idle_interrupt m_base 0x20 0 rfl⟩

/-- Claim C6 (amended): for every accepted request (machine in the start
state) and every start-safe interrupt sequence — one in which no
interrupt is delivered in the start state with a status other than
start-condition-sent — the completion result is written to the caller's
result slot at most once over the whole run, and it has been written
exactly once precisely when the controller has reached Idle; since an
idle machine never writes again, the state is Idle immediately after the
completion write and from then on.  (Instantiating the event list at
every prefix of a run gives the per-step reading.)  Without the
start-safe proviso the claim is false: a start-phase error leaves the
state at start and every further bad-status interrupt rewrites the
error result, as the counterexample shows. -/
theorem c6_result_once_amended (m : Machine) (evs : List (Nat × Nat))
    (hst : m.state = i2c_state_t.start)
    (hsafe : startSafe m evs = true) :
    completionWrites (run m evs).2 ≤ 1 ∧
    (completionWrites (run m evs).2 = 1 ↔ (run m evs).1.state = i2c_state_t.idle) :=
  run_completion_aux evs m (by simp [hst]) hsafe

/-- Claim C6 (witness for the amended theorem on the all-ACK run of
example scenario 1). -/
theorem c6_amended_witness :
    scenario1Accept.2.1.state = i2c_state_t.start ∧
    startSafe scenario1Accept.2.1 allAckWriteEvents = true ∧
    (completionWrites (run scenario1Accept.2.1 allAckWriteEvents).2 ≤ 1 ∧
     (completionWrites (run scenario1Accept.2.1 allAckWriteEvents).2 = 1 ↔
       (run scenario1Accept.2.1 allAckWriteEvents).1.state = i2c_state_t.idle)) :=
  ⟨by decide, by decide,
   c6_result_once_amended scenario1Accept.2.1 allAckWriteEvents (by decide) (by decide)⟩

/-- Claim C8: for every read-register transaction of length L > 0 (L
below the uint8 bound) in which every bus event succeeds, the run issues
exactly L − 1 ACKs followed by exactly one NACK (the filtered ACK/NACK
subtrace is L − 1 ACKs then the NACK), the caller's buffer slots
0..L−1 are filled with the received bytes in order — one byte per
handler invocation, as the trace equation behind `run_read_loop`
records — and the transaction ends idle with the success result and
`handled_bytes = L`. -/
theorem c8_read_ack_nack (m0 : Machine) (a r : Nat) (bytes : List Nat)
    (h0 : m0.state = i2c_state_t.idle) (hne : bytes ≠ [])
    (hlt : bytes.length < 256) :
    ((run (i2c_read_register m0 a r bytes.length).2.1
        (readRegisterEvents bytes)).2.filter isAckNack =
      List.replicate (bytes.length - 1) Action.sendAck ++ [Action.sendNack]) ∧
    (∀ i, i < bytes.length →
      (run (i2c_read_register m0 a r bytes.length).2.1
        (readRegisterEvents bytes)).1.mem i = bytes.getD i 0 % 256) ∧
    (run (i2c_read_register m0 a r bytes.length).2.1
        (readRegisterEvents bytes)).1.state = i2c_state_t.idle ∧
    (run (i2c_read_register m0 a r bytes.length).2.1
        (readRegisterEvents bytes)).1.result = i2c_op_result_t.i2c_operation_ok ∧
    (run (i2c_read_register m0 a r bytes.length).2.1
        (readRegisterEvents bytes)).1.handled_bytes = bytes.length := by
  cases m0 with
  | mk op sa dr st bl hb oc me re =>
    obtain rfl : st = i2c_state_t.idle := h0
    have hacc : (i2c_read_register
        (Machine.mk op sa dr i2c_state_t.idle bl hb oc me re) a r bytes.length).2.1 =
      Machine.mk i2c_operation_t.read_register_op (a % 256) (r % 256)
        i2c_state_t.start (bytes.length % 256) 0 oc me
        i2c_op_result_t.i2c_operation_processing := by
      simp [i2c_read_register]
    rw [hacc]
    have hstep1 : isr (Machine.mk i2c_operation_t.read_register_op (a % 256) (r % 256)
        i2c_state_t.start (bytes.length % 256) 0 oc me
        i2c_op_result_t.i2c_operation_processing) TW_START 0 =
      (Machine.mk i2c_operation_t.read_register_op (a % 256) (r % 256)
        i2c_state_t.send_sla_w (bytes.length % 256) 0 oc me
        i2c_op_result_t.i2c_operation_processing,
       [Action.writeByte (a % 256)]) := by
      simp [isr]
    have hstep2 : isr (Machine.mk i2c_operation_t.read_register_op (a % 256) (r % 256)
        i2c_state_t.send_sla_w (bytes.length % 256) 0 oc me
        i2c_op_result_t.i2c_operation_processing) TW_MT_SLA_ACK 0 =
      (Machine.mk i2c_operation_t.read_register_op (a % 256) (r % 256)
        i2c_state_t.write_register (bytes.length % 256) 0 oc me
        i2c_op_result_t.i2c_operation_processing,
       [Action.bufRead (r % 256), Action.writeByte (me (r % 256))]) := by
      simp [isr]
    have hstep3 : isr (Machine.mk i2c_operation_t.read_register_op (a % 256) (r % 256)
        i2c_state_t.write_register (bytes.length % 256) 0 oc me
        i2c_op_result_t.i2c_operation_processing) TW_MT_DATA_ACK 0 =
      (Machine.mk i2c_operation_t.read_register_op (a % 256) (r % 256)
        i2c_state_t.repeated_start (bytes.length % 256) 0 oc me
        i2c_op_result_t.i2c_operation_processing,
       [Action.restart]) := by
      simp [isr]
    have hstep4 : isr (Machine.mk i2c_operation_t.read_register_op (a % 256) (r % 256)
        i2c_state_t.repeated_start (bytes.length % 256) 0 oc me
        i2c_op_result_t.i2c_operation_processing) TW_REP_START 0 =
      (Machine.mk i2c_operation_t.read_register_op (a % 256) (r % 256)
        i2c_state_t.read_data (bytes.length % 256) 0 oc me
        i2c_op_result_t.i2c_operation_processing,
       [Action.writeByte (Nat.lor (a % 256) I2C_READ_BIT)]) := by
      simp [isr]
    have hmodlen : bytes.length % 256 = bytes.length := Nat.mod_eq_of_lt hlt
    have hloop := run_read_loop bytes
      (Machine.mk i2c_operation_t.read_register_op (a % 256) (r % 256)
        i2c_state_t.read_data (bytes.length % 256) 0 oc me
        i2c_op_result_t.i2c_operation_processing) rfl
      (by dsimp only; omega) (by dsimp only; omega) hne
    simp only [readRegisterEvents]
    rw [run_cons_pair, hstep1]
    dsimp only
    rw [run_cons_pair, hstep2]
    dsimp only
    rw [run_cons_pair, hstep3]
    dsimp only
    rw [run_cons_pair, hstep4]
    dsimp only
    rw [run_readEvents_eq bytes _ rfl hne, hloop]
    dsimp only
    refine ⟨?_, ?_, rfl, rfl, hmodlen⟩
    · simp [List.filter, isAckNack, readPhaseTrace_filter bytes 0 hne]
    · intro i hi
      have hwb := writeBack_getD bytes me 0 i hi
      simpa using hwb

/-- Claim C8 (witness: the spec's example scenario 2, a three-byte read
from register 0x20 of target 0x50 receiving 0x11, 0x22, 0x33). -/
theorem c8_witness :
    ((run (i2c_read_register m_base 0x50 0x20 3).2.1
        (readRegisterEvents [0x11, 0x22, 0x33])).2.filter isAckNack =
      [Action.sendAck, Action.sendAck, Action.sendNack]) ∧
    (run (i2c_read_register m_base 0x50 0x20 3).2.1
        (readRegisterEvents [0x11, 0x22, 0x33])).1.mem 0 = 0x11 ∧
    (run (i2c_read_register m_base 0x50 0x20 3).2.1
        (readRegisterEvents [0x11, 0x22, 0x33])).1.mem 1 = 0x22 ∧
    (run (i2c_read_register m_base 0x50 0x20 3).2.1
        (readRegisterEvents [0x11, 0x22, 0x33])).1.mem 2 = 0x33 ∧
    (run (i2c_read_register m_base 0x50 0x20 3).2.1
        (readRegisterEvents [0x11, 0x22, 0x33])).1.state = i2c_state_t.idle ∧
    (run (i2c_read_register m_base 0x50 0x20 3).2.1
        (readRegisterEvents [0x11, 0x22, 0x33])).1.result =
      i2c_op_result_t.i2c_operation_ok := by
  have h := c8_read_ack_nack m_base 0x50 0x20 [0x11, 0x22, 0x33] rfl
    (by decide) (by decide)
  refine ⟨?_, ?_, ?_, ?_, h.2.2.1, h.2.2.2.1⟩
  · have h1 := h.1
    simpa using h1
  · have h2 := h.2.1 0 (by decide)
    simpa using h2
  · have h2 := h.2.1 1 (by decide)
    simpa using h2
  · have h2 := h.2.1 2 (by decide)
    simpa using h2

end I2c
